import Mathlib

/-!
Shallow embedding of librsvg's typed attribute-value parsing core:
`src/rust/src/paint_server.rs`, `src/rust/src/property_bag.rs`, and
`src/rsvg_internals/src/coord_units.rs`.

Rust `Result<T, E>` is modelled as `Except E T`; generic functions that
are parameterized over a `Parse` trait implementation take an explicit
`ParseImpl` record instead.
-/

namespace Rsvg

/-- Models `parsers::ParseError` (its definition is outside the provided
sources; per the spec, a context-free parse error carrying a message that
names the legal keywords).  `ParseError::new(msg)` builds it from the
message string. -/
structure ParseError where
  msg : String
  deriving Repr, DecidableEq

/-- Models `error::AttributeError` (its definition is outside the provided
sources; only the `Parse` constructor, wrapping a `ParseError`, is used by
the embedded code). -/
inductive AttributeError where
  | Parse : ParseError → AttributeError
  deriving Repr, DecidableEq

/-- Models `error::NodeError` as produced by `NodeError::attribute_error`
(its definition is outside the provided sources; per the spec it carries
the attribute key together with the underlying typed parse failure). -/
structure NodeError where
  attr : String
  err : AttributeError
  deriving Repr, DecidableEq

/-- Models `NodeError::attribute_error (key, e)`. -/
def NodeError.attribute_error (key : String) (e : AttributeError) : NodeError :=
  ⟨key, e⟩

/-- `CoordUnits` from `src/rust/src/paint_server.rs` (the same two-variant
enumeration also appears in `src/rsvg_internals/src/coord_units.rs`). -/
inductive CoordUnits where
  | UserSpaceOnUse
  | ObjectBoundingBox
  deriving Repr, DecidableEq

/-- An implementation of the `Parse` trait with `Err = AttributeError`:
the shape required by the helpers in `property_bag.rs`.  `D` is the
associated `Data` type. -/
structure ParseImpl (T : Type) (D : Type) where
  parse : String → D → Except AttributeError T

/-- The error message literal from `CoordUnits::parse` in
`src/rust/src/paint_server.rs` line 27. -/
def coordUnitsErrMsg : String :=
  "expected \x27userSpaceOnUse\x27 or \x27objectBoundingBox\x27"

/-- `impl Parse for CoordUnits` in `src/rust/src/paint_server.rs`
lines 19-30: exact match on the two keyword literals, otherwise a parse
error with `coordUnitsErrMsg`. -/
def CoordUnits.parse (s : String) (_ : Unit) : Except AttributeError CoordUnits :=
  if s = "userSpaceOnUse" then .ok .UserSpaceOnUse
  else if s = "objectBoundingBox" then .ok .ObjectBoundingBox
  else .error (.Parse ⟨coordUnitsErrMsg⟩)

/-- `impl Default for CoordUnits` in `src/rust/src/paint_server.rs`
lines 32-36. -/
def CoordUnits.default : CoordUnits :=
  CoordUnits.ObjectBoundingBox

/-- Models `cairo::enums::Extend` (external graphics backend enumeration;
the embedded code uses only `Pad`, `Reflect`, `Repeat`). -/
inductive Extend where
  | NoExtend
  | Pad
  | Reflect
  | Repeat
  deriving Repr, DecidableEq

/-- `PaintServerSpread` from `src/rust/src/paint_server.rs` line 39:
a newtype around the backend's extend/tiling mode. -/
structure PaintServerSpread where
  ext : Extend
  deriving Repr, DecidableEq

/-- The error message literal from `PaintServerSpread::parse` in
`src/rust/src/paint_server.rs` line 50. -/
def spreadErrMsg : String :=
  "expected \x27pad\x27 | \x27reflect\x27 | \x27repeat\x27"

/-- `impl Parse for PaintServerSpread` in `src/rust/src/paint_server.rs`
lines 41-53. -/
def PaintServerSpread.parse (s : String) (_ : Unit) :
    Except AttributeError PaintServerSpread :=
  if s = "pad" then .ok ⟨.Pad⟩
  else if s = "reflect" then .ok ⟨.Reflect⟩
  else if s = "repeat" then .ok ⟨.Repeat⟩
  else .error (.Parse ⟨spreadErrMsg⟩)

/-- `impl Default for PaintServerSpread` in `src/rust/src/paint_server.rs`
lines 55-59. -/
def PaintServerSpread.default : PaintServerSpread :=
  ⟨.Pad⟩

/-- Does `needle` occur at the start of `hay`?  (Helper used to state
that an error message names a keyword.) -/
def seqStartsWith : List Char → List Char → Bool
  | [], _ => true
  | _ :: _, [] => false
  | a :: as, b :: bs => a = b && seqStartsWith as bs

/-- Does `needle` occur contiguously anywhere in `hay`? -/
def seqContains (needle : List Char) : List Char → Bool
  | [] => seqStartsWith needle []
  | c :: rest => seqStartsWith needle (c :: rest) || seqContains needle rest

/-- The error message `msg` names the keyword `kw`: `kw` occurs in `msg`
as a contiguous substring. -/
def namesKeyword (kw msg : String) : Bool :=
  seqContains kw.data msg.data

/-!
`src/rust/src/property_bag.rs`.  `RsvgPropertyBag` is an opaque external
C store; per the spec (section 3) it is an ordered mapping from
attribute-name strings to attribute-value strings, which we model as an
association list. -/

/-- Modelled from the spec: the contents of an `RsvgPropertyBag` handle —
the external store's ordered attribute-name/attribute-value mapping
(spec section 3, "External Attribute Bag"). -/
def PropertyBag : Type :=
  List (String × String)

/-- `lookup` from `src/rust/src/property_bag.rs` lines 16-21.  The FFI
call `rsvg_property_bag_lookup` is external C code; per the spec
(section 4.3) it returns the current string value for `key` if present
and `None` if absent, which over the association-list model is the first
matching entry. -/
def lookup (pbag : PropertyBag) (key : String) : Option String :=
  (List.find? (fun p => p.1 = key) pbag).map Prod.snd

/-- `parse_or_none` from `src/rust/src/property_bag.rs` lines 35-48. -/
def parse_or_none {T D : Type} (P : ParseImpl T D) (pbag : PropertyBag)
    (key : String) (data : D) : Except NodeError (Option T) :=
  match lookup pbag key with
  | some v =>
      match P.parse v data with
      | .ok t => .ok (some t)
      | .error e => .error (NodeError.attribute_error key e)
  | none => .ok none

/-- `parse_or_value` from `src/rust/src/property_bag.rs` lines 56-66. -/
def parse_or_value {T D : Type} (P : ParseImpl T D) (pbag : PropertyBag)
    (key : String) (data : D) (value : T) : Except NodeError T :=
  match parse_or_none P pbag key data with
  | .ok (some v) => .ok v
  | .ok none => .ok value
  | .error e => .error e

/-- `parse_or_default` from `src/rust/src/property_bag.rs` lines 50-54.
The `T: Default` bound is modelled by the explicit argument `dflt`,
standing for `T::default()`. -/
def parse_or_default {T D : Type} (P : ParseImpl T D) (dflt : T)
    (pbag : PropertyBag) (key : String) (data : D) : Except NodeError T :=
  parse_or_value P pbag key data dflt

/-- The `Parse` implementation of `CoordUnits` from
`src/rust/src/paint_server.rs`, packaged for the `property_bag.rs`
helpers. -/
def coordUnitsParseImpl : ParseImpl CoordUnits Unit :=
  ⟨CoordUnits.parse⟩

/-!
Handle-level model of the external bag bridge, for the
duplicate/release/lookup lifetime contract (`dup`, `free`, `lookup` in
`src/rust/src/property_bag.rs` wrap the external C functions
`rsvg_property_bag_dup`, `rsvg_property_bag_free`,
`rsvg_property_bag_lookup`). -/

/-- Modelled from the spec: the state of the external bag store.  The C
functions `rsvg_property_bag_dup` / `rsvg_property_bag_free` /
`rsvg_property_bag_lookup` are external to the provided sources; per spec
sections 3, 4.3 and 5 the store hands out handles, each live handle has
key/value contents, duplication yields an independent fully equivalent
copy, and release ends a handle's life. -/
structure BagStore where
  contents : Nat → PropertyBag
  live : Nat → Bool
  next : Nat

/-- `dup` from `src/rust/src/property_bag.rs` lines 23-27 over the store
model: allocates a fresh handle whose contents are an independent copy of
the source handle's contents. -/
def dup (st : BagStore) (b : Nat) : BagStore × Nat :=
  (⟨fun h => if h = st.next then st.contents b else st.contents h,
    fun h => if h = st.next then true else st.live h,
    st.next + 1⟩,
   st.next)

/-- `free` from `src/rust/src/property_bag.rs` lines 29-33 over the store
model: relinquishes the handle, ending its life. -/
def free (st : BagStore) (b : Nat) : BagStore :=
  ⟨st.contents, fun h => if h = b then false else st.live h, st.next⟩

/-- `lookup` from `src/rust/src/property_bag.rs` seen at the handle
level: reads the handle's current contents (a live handle is required by
the spec's ownership discipline; a released handle has no readable
contents). -/
def lookupHandle (st : BagStore) (b : Nat) (key : String) : Option String :=
  if st.live b then lookup (st.contents b) key else none

/-!
`src/rsvg_internals/src/coord_units.rs`.  This later evolutionary stage
defines its own `CoordUnits` enumeration with the same two variants; we
reuse the `CoordUnits` inductive above for it, and keep its parser as a
separate definition.  Errors there are `CssParseError` values. -/

/-- Modelled from the spec: `error::CssParseError` (outside the provided
sources; per the spec the two coordinate-units parsers differ only in how
the parse error is represented, so it is modelled as carrying the
unexpected input). -/
inductive CssParseError where
  | UnexpectedToken : String → CssParseError
  deriving Repr, DecidableEq

/-- Modelled from the spec: the `parse_identifiers!` macro used by
`CoordUnits::parse_to_parse_error` (the macro's definition, in
`parsers.rs`, is outside the provided sources).  Per spec section 4.1 the
parser contract does exact, case-sensitive matching of the raw string
with no trimming or normalization, so the macro is modelled as matching
the input against each keyword/value pair in turn. -/
def parse_identifiers {α : Type} : List (String × α) → String →
    Except CssParseError α
  | [], s => .error (.UnexpectedToken s)
  | (kw, v) :: rest, s => if s = kw then .ok v else parse_identifiers rest s

/-- `impl ParseToParseError for CoordUnits` in
`src/rsvg_internals/src/coord_units.rs` lines 17-25: delegates to
`parse_identifiers!` with the two keyword/variant pairs written there. -/
def CoordUnits.parse_to_parse_error (s : String) :
    Except CssParseError CoordUnits :=
  parse_identifiers
    [("userSpaceOnUse", CoordUnits.UserSpaceOnUse),
     ("objectBoundingBox", CoordUnits.ObjectBoundingBox)] s

/-- The newtype generated by the `coord_units!` macro in
`src/rsvg_internals/src/coord_units.rs` lines 36-61.  Each macro
invocation `coord_units!($name, $default)` yields a distinct wrapper
struct around `CoordUnits`; the family is indexed here by the configured
default value `d`. -/
structure GenUnits (d : CoordUnits) where
  u : CoordUnits
  deriving Repr, DecidableEq

/-- The `impl Default` generated by `coord_units!`:
`fn default() -> Self { $name($default) }`. -/
def GenUnits.default (d : CoordUnits) : GenUnits d :=
  ⟨d⟩

/-- The `impl From<$name> for CoordUnits` generated by `coord_units!`:
`fn from(u) -> Self { u.0 }`. -/
def CoordUnits.from_units {d : CoordUnits} (w : GenUnits d) : CoordUnits :=
  w.u

/-- The `impl ParseToParseError` generated by `coord_units!`:
`Ok($name(CoordUnits::parse_to_parse_error(parser)?))`. -/
def GenUnits.parse_to_parse_error (d : CoordUnits) (s : String) :
    Except CssParseError (GenUnits d) :=
  match CoordUnits.parse_to_parse_error s with
  | .ok c => .ok ⟨c⟩
  | .error e => .error e

/-- A concrete bag store used by the C9 witness: one live handle `0`
holding a single attribute. -/
def sampleStore : BagStore :=
  ⟨fun _ => [("a", "1")], fun h => h == 0, 1⟩

/-- A string `s` is a whitespace-or-case variant of the keyword `kw`:
either `s` is `kw` surrounded by nonempty whitespace on the left or
right, or `s` differs from `kw` only in letter case. -/
def IsVariantOf (s kw : String) : Prop :=
  (∃ w : List Char, w.all Char.isWhitespace = true ∧ w ≠ [] ∧
    (s.data = w ++ kw.data ∨ s.data = kw.data ++ w)) ∨
  (s ≠ kw ∧ s.data.map Char.toLower = kw.data.map Char.toLower)

/-- C1: `CoordUnits` parsing succeeds exactly on the two keywords
`"userSpaceOnUse"` and `"objectBoundingBox"`, mapping each to its
variant; every other string (including the empty string) yields a parse
error whose message names both legal keywords. -/
theorem coord_units_parse_exact (s : String)
    (h1 : s ≠ "userSpaceOnUse") (h2 : s ≠ "objectBoundingBox") :
    CoordUnits.parse "userSpaceOnUse" () = .ok .UserSpaceOnUse ∧
    CoordUnits.parse "objectBoundingBox" () = .ok .ObjectBoundingBox ∧
    ∃ e, CoordUnits.parse s () = .error (.Parse e) ∧
      namesKeyword "userSpaceOnUse" e.msg = true ∧
      namesKeyword "objectBoundingBox" e.msg = true := by
  refine ⟨rfl, rfl, ⟨⟨coordUnitsErrMsg⟩, ?_, by decide, by decide⟩⟩
  simp [CoordUnits.parse, h1, h2]

/-- Witness for C1 at the concrete rejected input `"foo"`. -/
theorem coord_units_parse_exact_witness :
    CoordUnits.parse "userSpaceOnUse" () = .ok .UserSpaceOnUse ∧
    CoordUnits.parse "objectBoundingBox" () = .ok .ObjectBoundingBox ∧
    ∃ e, CoordUnits.parse "foo" () = .error (.Parse e) ∧
      namesKeyword "userSpaceOnUse" e.msg = true ∧
      namesKeyword "objectBoundingBox" e.msg = true :=
  coord_units_parse_exact "foo" (by decide) (by decide)

/-- C5: `PaintServerSpread` parsing succeeds exactly on `"pad"`,
`"reflect"`, `"repeat"`, mapped 1:1 to the `Pad`, `Reflect`, `Repeat`
tiling modes; any other string yields a parse error whose message names
all three legal keywords; and the default wraps `Pad`. -/
theorem paint_server_spread_spec (s : String)
    (h1 : s ≠ "pad") (h2 : s ≠ "reflect") (h3 : s ≠ "repeat") :
    PaintServerSpread.parse "pad" () = .ok ⟨.Pad⟩ ∧
    PaintServerSpread.parse "reflect" () = .ok ⟨.Reflect⟩ ∧
    PaintServerSpread.parse "repeat" () = .ok ⟨.Repeat⟩ ∧
    (∃ e, PaintServerSpread.parse s () = .error (.Parse e) ∧
      namesKeyword "pad" e.msg = true ∧
      namesKeyword "reflect" e.msg = true ∧
      namesKeyword "repeat" e.msg = true) ∧
    PaintServerSpread.default = ⟨.Pad⟩ := by
  refine ⟨rfl, rfl, rfl, ⟨⟨spreadErrMsg⟩, ?_, by decide, by decide, by decide⟩, rfl⟩
  simp [PaintServerSpread.parse, h1, h2, h3]

/-- Witness for C5 at the concrete rejected input `"foobar"`. -/
theorem paint_server_spread_spec_witness :
    PaintServerSpread.parse "pad" () = .ok ⟨.Pad⟩ ∧
    PaintServerSpread.parse "reflect" () = .ok ⟨.Reflect⟩ ∧
    PaintServerSpread.parse "repeat" () = .ok ⟨.Repeat⟩ ∧
    (∃ e, PaintServerSpread.parse "foobar" () = .error (.Parse e) ∧
      namesKeyword "pad" e.msg = true ∧
      namesKeyword "reflect" e.msg = true ∧
      namesKeyword "repeat" e.msg = true) ∧
    PaintServerSpread.default = ⟨.Pad⟩ :=
  paint_server_spread_spec "foobar" (by decide) (by decide) (by decide)

/-- C2: `parse_or_default` returns `Ok(T::default())` when the key is
absent from the bag; when the key is present but its value fails to
parse, it returns an attribute error carrying that key (never the
default). -/
theorem parse_or_default_spec {T D : Type} (P : ParseImpl T D) (dflt : T)
    (pbag : PropertyBag) (key : String) (data : D) :
    (lookup pbag key = none →
      parse_or_default P dflt pbag key data = .ok dflt) ∧
    (∀ v e, lookup pbag key = some v → P.parse v data = .error e →
      parse_or_default P dflt pbag key data =
        .error (NodeError.attribute_error key e)) := by
  constructor
  · intro h
    simp [parse_or_default, parse_or_value, parse_or_none, h]
  · intro v e hv he
    simp [parse_or_default, parse_or_value, parse_or_none, hv, he]

/-- Witness for C2 at `T = CoordUnits`: an empty bag yields the default,
and a bag with an unparseable value for `"k"` yields an error carrying
`"k"`. -/
theorem parse_or_default_spec_witness :
    parse_or_default coordUnitsParseImpl CoordUnits.default [] "k" () =
      .ok CoordUnits.default ∧
    parse_or_default coordUnitsParseImpl CoordUnits.default
        [("k", "foo")] "k" () =
      .error (NodeError.attribute_error "k" (.Parse ⟨coordUnitsErrMsg⟩)) :=
  ⟨(parse_or_default_spec coordUnitsParseImpl CoordUnits.default
      [] "k" ()).1 rfl,
   (parse_or_default_spec coordUnitsParseImpl CoordUnits.default
      [("k", "foo")] "k" ()).2 "foo" (.Parse ⟨coordUnitsErrMsg⟩) rfl rfl⟩

/-- C3: `parse_or_none` returns `Ok(None)` whenever the key is absent
(absence is never an error); when the key is present it returns
`Ok(Some(parsed))` on a successful parse and a key-annotated attribute
error on a failed parse. -/
theorem parse_or_none_spec {T D : Type} (P : ParseImpl T D)
    (pbag : PropertyBag) (key : String) (data : D) :
    (lookup pbag key = none → parse_or_none P pbag key data = .ok none) ∧
    (∀ v t, lookup pbag key = some v → P.parse v data = .ok t →
      parse_or_none P pbag key data = .ok (some t)) ∧
    (∀ v e, lookup pbag key = some v → P.parse v data = .error e →
      parse_or_none P pbag key data =
        .error (NodeError.attribute_error key e)) := by
  refine ⟨fun h => ?_, fun v t hv ht => ?_, fun v e hv he => ?_⟩
  · simp [parse_or_none, h]
  · simp [parse_or_none, hv, ht]
  · simp [parse_or_none, hv, he]

/-- Witness for C3 at `T = CoordUnits`: absent key, present-and-valid
key, and present-but-invalid key on concrete bags. -/
theorem parse_or_none_spec_witness :
    parse_or_none coordUnitsParseImpl [] "k" () = .ok none ∧
    parse_or_none coordUnitsParseImpl [("k", "userSpaceOnUse")] "k" () =
      .ok (some CoordUnits.UserSpaceOnUse) ∧
    parse_or_none coordUnitsParseImpl [("k", "foo")] "k" () =
      .error (NodeError.attribute_error "k" (.Parse ⟨coordUnitsErrMsg⟩)) :=
  ⟨(parse_or_none_spec coordUnitsParseImpl [] "k" ()).1 rfl,
   (parse_or_none_spec coordUnitsParseImpl
      [("k", "userSpaceOnUse")] "k" ()).2.1 "userSpaceOnUse"
      CoordUnits.UserSpaceOnUse rfl rfl,
   (parse_or_none_spec coordUnitsParseImpl
      [("k", "foo")] "k" ()).2.2 "foo" (.Parse ⟨coordUnitsErrMsg⟩) rfl rfl⟩

/-- C4: `parse_or_value` returns the caller-supplied fallback exactly
when the key is absent (for every fallback, also one differing from the
default); when the key is present its behaviour is that of
`parse_or_none` with the `Some` unwrapped. -/
theorem parse_or_value_spec {T D : Type} (P : ParseImpl T D)
    (pbag : PropertyBag) (key : String) (data : D) (fallback : T) :
    (lookup pbag key = none →
      parse_or_value P pbag key data fallback = .ok fallback) ∧
    (∀ t, parse_or_none P pbag key data = .ok (some t) →
      parse_or_value P pbag key data fallback = .ok t) ∧
    (∀ e, parse_or_none P pbag key data = .error e →
      parse_or_value P pbag key data fallback = .error e) := by
  refine ⟨fun h => ?_, fun t h => ?_, fun e h => ?_⟩
  · simp [parse_or_value, parse_or_none, h]
  · simp [parse_or_value, h]
  · simp [parse_or_value, h]

/-- Witness for C4 at `T = CoordUnits` with fallback `UserSpaceOnUse`,
which differs from `CoordUnits::default() = ObjectBoundingBox`: an empty
bag yields exactly the fallback; a present key yields the parsed value,
not the fallback. -/
theorem parse_or_value_spec_witness :
    parse_or_value coordUnitsParseImpl [] "k" ()
      CoordUnits.UserSpaceOnUse = .ok CoordUnits.UserSpaceOnUse ∧
    parse_or_value coordUnitsParseImpl [("k", "objectBoundingBox")] "k" ()
      CoordUnits.UserSpaceOnUse = .ok CoordUnits.ObjectBoundingBox :=
  ⟨(parse_or_value_spec coordUnitsParseImpl [] "k" ()
      CoordUnits.UserSpaceOnUse).1 rfl,
   (parse_or_value_spec coordUnitsParseImpl [("k", "objectBoundingBox")]
      "k" () CoordUnits.UserSpaceOnUse).2.1
      CoordUnits.ObjectBoundingBox rfl⟩

/-- C10: the plain `CoordUnits` enumeration implements `Default`,
yielding `ObjectBoundingBox`; consequently `parse_or_default` at type
`CoordUnits` on an absent key returns `ObjectBoundingBox`. -/
theorem coord_units_default_obb (pbag : PropertyBag) (key : String)
    (h : lookup pbag key = none) :
    CoordUnits.default = CoordUnits.ObjectBoundingBox ∧
    parse_or_default coordUnitsParseImpl CoordUnits.default pbag key () =
      .ok CoordUnits.ObjectBoundingBox := by
  refine ⟨rfl, ?_⟩
  simp [parse_or_default, parse_or_value, parse_or_none, h,
    CoordUnits.default]

/-- Witness for C10 at the empty bag. -/
theorem coord_units_default_obb_witness :
    CoordUnits.default = CoordUnits.ObjectBoundingBox ∧
    parse_or_default coordUnitsParseImpl CoordUnits.default [] "k" () =
      .ok CoordUnits.ObjectBoundingBox :=
  coord_units_default_obb [] "k" rfl

/-- C6: for every `coord_units!`-generated newtype with configured
default `d`: `default()` is the wrapper around `d`; the conversion to
plain `CoordUnits` is lossless (unwrapping the wrapper built from any `u`
yields `u` back, in particular on `default()`); and the newtype's parse
agrees with `CoordUnits`'s own parse, wrapping the same value. -/
theorem gen_units_spec (d u : CoordUnits) (s : String) :
    GenUnits.default d = ⟨d⟩ ∧
    CoordUnits.from_units (⟨u⟩ : GenUnits d) = u ∧
    CoordUnits.from_units (GenUnits.default d) = d ∧
    GenUnits.parse_to_parse_error d s =
      (CoordUnits.parse_to_parse_error s).map
        (fun c => (⟨c⟩ : GenUnits d)) := by
  refine ⟨rfl, rfl, rfl, ?_⟩
  unfold GenUnits.parse_to_parse_error
  cases CoordUnits.parse_to_parse_error s <;> rfl

/-- C7: the two independently defined coordinate-units parsers —
`CoordUnits::parse` in `src/rust/src/paint_server.rs` and
`CoordUnits::parse_to_parse_error` in
`src/rsvg_internals/src/coord_units.rs` — accept exactly the same
strings, produce the same variant on acceptance, and differ only in the
error representation. -/
theorem coord_units_parsers_equivalent (s : String) :
    (∀ u : CoordUnits, CoordUnits.parse s () = .ok u ↔
      CoordUnits.parse_to_parse_error s = .ok u) ∧
    ((∃ e, CoordUnits.parse s () = .error e) ↔
      (∃ e, CoordUnits.parse_to_parse_error s = .error e)) := by
  by_cases h1 : s = "userSpaceOnUse"
  · subst h1
    simp [CoordUnits.parse, CoordUnits.parse_to_parse_error,
      parse_identifiers]
  · by_cases h2 : s = "objectBoundingBox"
    · subst h2
      simp [CoordUnits.parse, CoordUnits.parse_to_parse_error,
        parse_identifiers]
    · simp [CoordUnits.parse, CoordUnits.parse_to_parse_error,
        parse_identifiers, h1, h2]

/-- C9: after `dup(b)` produces a duplicate handle `d`, releasing the
original with `free(b)` leaves every subsequent `lookup(d, k)`
unaffected, and the duplicate still reads the original's contents.  The
hypotheses say that `b` is a live, already-allocated handle (the store's
ownership invariant). -/
theorem dup_free_independent (st : BagStore) (b : Nat) (k : String)
    (_hlive : st.live b = true) (hb : b < st.next) :
    lookupHandle (free (dup st b).1 b) (dup st b).2 k =
      lookupHandle (dup st b).1 (dup st b).2 k ∧
    lookupHandle (free (dup st b).1 b) (dup st b).2 k =
      lookup (st.contents b) k := by
  have hne : st.next ≠ b := (Nat.ne_of_lt hb).symm
  constructor
  · simp [dup, free, lookupHandle, hne]
  · simp [dup, free, lookupHandle, hne]

/-- Witness for C9 on `sampleStore`: duplicating handle `0` and then
releasing it leaves the duplicate's lookup intact. -/
theorem dup_free_independent_witness :
    lookupHandle (free (dup sampleStore 0).1 0) (dup sampleStore 0).2 "a" =
      lookupHandle (dup sampleStore 0).1 (dup sampleStore 0).2 "a" ∧
    lookupHandle (free (dup sampleStore 0).1 0) (dup sampleStore 0).2 "a" =
      lookup (sampleStore.contents 0) "a" :=
  dup_free_independent sampleStore 0 "a" rfl (by decide)

/-- A string containing a whitespace character never equals a
whitespace-free string. -/
theorem ne_of_whitespace_member (s t : String) (c : Char) (hc : c ∈ s.data)
    (hw : c.isWhitespace = true)
    (ht : t.data.all (fun a => !a.isWhitespace) = true) : s ≠ t := by
  intro h
  subst h
  have := List.all_eq_true.mp ht c hc
  simp [hw] at this

/-- A whitespace-or-case variant of `kw` differs from any whitespace-free
string `t` that is either `kw` itself or has a different lowercase
image. -/
theorem variant_ne (s kw t : String) (hvar : IsVariantOf s kw)
    (hws : t.data.all (fun a => !a.isWhitespace) = true)
    (hlow : t = kw ∨ t.data.map Char.toLower ≠ kw.data.map Char.toLower) :
    s ≠ t := by
  rcases hvar with ⟨w, hall, hne, hsplit⟩ | ⟨hne, hmap⟩
  · obtain ⟨c, rest, rfl⟩ : ∃ c rest, w = c :: rest := by
      cases w with
      | nil => exact absurd rfl hne
      | cons c rest => exact ⟨c, rest, rfl⟩
    have hcw : c.isWhitespace = true := by
      have := List.all_eq_true.mp hall c (by simp)
      simpa using this
    have hcs : c ∈ s.data := by
      rcases hsplit with h | h <;> (rw [h]; simp)
    exact ne_of_whitespace_member s t c hcs hcw hws
  · rcases hlow with rfl | hlt
    · exact hne
    · intro h
      subst h
      exact hlt hmap

/-- C8: no parser in scope trims or normalizes its input: every string
with leading or trailing whitespace around a legal keyword, and every
proper case variant of a legal keyword, is rejected — by both
coordinate-units parser implementations when the keyword is one of
theirs, and by `PaintServerSpread` when the keyword is one of its
three. -/
theorem parse_no_normalization (s kw : String) (hvar : IsVariantOf s kw) :
    ((kw = "userSpaceOnUse" ∨ kw = "objectBoundingBox") →
      (∃ e, CoordUnits.parse s () = .error e) ∧
      (∃ e, CoordUnits.parse_to_parse_error s = .error e)) ∧
    ((kw = "pad" ∨ kw = "reflect" ∨ kw = "repeat") →
      ∃ e, PaintServerSpread.parse s () = .error e) := by
  constructor
  · rintro (rfl | rfl)
    · have n1 : s ≠ "userSpaceOnUse" :=
        variant_ne s _ _ hvar (by decide) (Or.inl rfl)
      have n2 : s ≠ "objectBoundingBox" :=
        variant_ne s _ _ hvar (by decide) (Or.inr (by decide))
      exact ⟨⟨.Parse ⟨coordUnitsErrMsg⟩,
          by simp [CoordUnits.parse, n1, n2]⟩,
        ⟨.UnexpectedToken s,
          by simp [CoordUnits.parse_to_parse_error, parse_identifiers,
            n1, n2]⟩⟩
    · have n1 : s ≠ "userSpaceOnUse" :=
        variant_ne s _ _ hvar (by decide) (Or.inr (by decide))
      have n2 : s ≠ "objectBoundingBox" :=
        variant_ne s _ _ hvar (by decide) (Or.inl rfl)
      exact ⟨⟨.Parse ⟨coordUnitsErrMsg⟩,
          by simp [CoordUnits.parse, n1, n2]⟩,
        ⟨.UnexpectedToken s,
          by simp [CoordUnits.parse_to_parse_error, parse_identifiers,
            n1, n2]⟩⟩
  · have spread : s ≠ "pad" → s ≠ "reflect" → s ≠ "repeat" →
        ∃ e, PaintServerSpread.parse s () = .error e := by
      intro n1 n2 n3
      exact ⟨.Parse ⟨spreadErrMsg⟩,
        by simp [PaintServerSpread.parse, n1, n2, n3]⟩
    rintro (rfl | rfl | rfl)
    · exact spread (variant_ne s _ _ hvar (by decide) (Or.inl rfl))
        (variant_ne s _ _ hvar (by decide) (Or.inr (by decide)))
        (variant_ne s _ _ hvar (by decide) (Or.inr (by decide)))
    · exact spread (variant_ne s _ _ hvar (by decide) (Or.inr (by decide)))
        (variant_ne s _ _ hvar (by decide) (Or.inl rfl))
        (variant_ne s _ _ hvar (by decide) (Or.inr (by decide)))
    · exact spread (variant_ne s _ _ hvar (by decide) (Or.inr (by decide)))
        (variant_ne s _ _ hvar (by decide) (Or.inr (by decide)))
        (variant_ne s _ _ hvar (by decide) (Or.inl rfl))

/-- Witness for C8: the leading-whitespace variant `" userSpaceOnUse"`
of `"userSpaceOnUse"` is rejected by both coordinate-units parsers, and
the case variant `"PAD"` of `"pad"` is rejected by the
`PaintServerSpread` parser. -/
theorem parse_no_normalization_witness :
    ((∃ e, CoordUnits.parse " userSpaceOnUse" () = .error e) ∧
      (∃ e, CoordUnits.parse_to_parse_error " userSpaceOnUse" =
        .error e)) ∧
    (∃ e, PaintServerSpread.parse "PAD" () = .error e) :=
  ⟨(parse_no_normalization " userSpaceOnUse" "userSpaceOnUse"
      (Or.inl ⟨[' '], by decide, by decide, Or.inl (by decide)⟩)).1
      (Or.inl rfl),
   (parse_no_normalization "PAD" "pad"
      (Or.inr ⟨by decide, by decide⟩)).2 (Or.inl rfl)⟩

end Rsvg





